import Mathlib

/-!
Verification of the Ghostwriter PPTX report-writer modules.

This file gives a shallow embedding, in Lean, of the Python code in
`ghostwriter/modules/reportwriter/base/slide_mapping.py`,
`ghostwriter/modules/reportwriter/base/pptx.py` and
`ghostwriter/modules/reportwriter/report/pptx.py`, and proves (or refutes)
the testable properties stated in the design specification.

Python values flowing through the mapping configuration are dynamically
typed JSON-like data; they are embedded as the inductive type `JValue`.
Exceptions are embedded with `Except`/`Option`: a Python function that can
raise is a Lean function returning `Except`, and a `try/except` block is a
`match` on that result.
-/

/-- JSON-like dynamic value, the embedding of the Python values stored in
the `slide_mapping` JSONField (dicts, lists, strings, ints, bools, None). -/
inductive JValue where
  | null
  | bool (b : Bool)
  | int (n : Int)
  | str (s : String)
  | list (xs : List JValue)
  | dict (kvs : List (String × JValue))

/-- Embedding of the Python `isinstance(v, dict)` check. -/
def JValue.isDict : JValue → Bool
  | .dict _ => true
  | _ => false

/-- Embedding of Python `d.get(k)` on a dict: the value bound to the first
matching key, if any (`none` on a non-dict, which Python never reaches here). -/
def JValue.get (v : JValue) (k : String) : Option JValue :=
  match v with
  | .dict kvs => (kvs.find? (fun kv => kv.1 == k)).map (·.2)
  | _ => none

/-- Extract a string; any other runtime type is a dynamic-typing failure. -/
def JValue.asStr : JValue → Option String
  | .str s => some s
  | _ => none

/-- Extract an integer; any other runtime type is a dynamic-typing failure. -/
def JValue.asInt : JValue → Option Int
  | .int n => some n
  | _ => none

/-- Extract a boolean; any other runtime type is a dynamic-typing failure. -/
def JValue.asBool : JValue → Option Bool
  | .bool b => some b
  | _ => none

/-- Embedding of `SlideConfig` (slide_mapping.py lines 11-47): configuration
for a single slide type. Fields carry the runtime types the code relies on. -/
structure SlideConfig where
  type : String
  layout_index : Int
  mode : String
  enabled : Bool
  position : Int
deriving DecidableEq, Repr

/-- Embedding of `SlideConfig.to_dict` (slide_mapping.py lines 28-36). -/
def SlideConfig.to_dict (c : SlideConfig) : JValue :=
  .dict
    [ ("type", .str c.type)
    , ("layout_index", .int c.layout_index)
    , ("mode", .str c.mode)
    , ("enabled", .bool c.enabled)
    , ("position", .int c.position)
    ]

/-- Embedding of `SlideConfig.from_dict` (slide_mapping.py lines 38-47).
A missing required key is a `KeyError`, and indexing a non-dict entry or a
field of the wrong runtime type is a `TypeError`; both are embedded as
`none` (the caller `_parse_slides` catches exactly these and skips the
entry). The key `enabled` defaults to `True` when absent. -/
def SlideConfig.from_dict (data : JValue) : Option SlideConfig := do
  let ty ← (data.get "type") >>= JValue.asStr
  let li ← (data.get "layout_index") >>= JValue.asInt
  let mo ← (data.get "mode") >>= JValue.asStr
  let en ← match data.get "enabled" with
    | none => pure true
    | some v => v.asBool
  let pos ← (data.get "position") >>= JValue.asInt
  pure { type := ty, layout_index := li, mode := mo, enabled := en, position := pos }

/-- Embedding of a slide layout of the bound python-pptx presentation; only
its name is observed by the code under verification. -/
structure SlideLayout where
  name : String
deriving DecidableEq, Repr

/-- Embedding of the python-pptx `Presentation` as far as the mapping
manager observes it: the ordered collection of slide layouts. -/
structure Presentation where
  slide_layouts : List SlideLayout
deriving DecidableEq, Repr

/-- The `DEFAULT_MAPPING` class constant (slide_mapping.py lines 74-92). -/
def DEFAULT_MAPPING : JValue :=
  .dict
    [ ("version", .int 1)
    , ("slides", .list
        [ .dict [("type", .str "title"), ("layout_index", .int 0), ("mode", .str "dynamic"), ("enabled", .bool true), ("position", .int 1)]
        , .dict [("type", .str "agenda"), ("layout_index", .int 1), ("mode", .str "dynamic"), ("enabled", .bool true), ("position", .int 2)]
        , .dict [("type", .str "introduction"), ("layout_index", .int 1), ("mode", .str "dynamic"), ("enabled", .bool true), ("position", .int 3)]
        , .dict [("type", .str "assessment_details"), ("layout_index", .int 1), ("mode", .str "dynamic"), ("enabled", .bool true), ("position", .int 4)]
        , .dict [("type", .str "methodology"), ("layout_index", .int 1), ("mode", .str "dynamic"), ("enabled", .bool true), ("position", .int 5)]
        , .dict [("type", .str "timeline"), ("layout_index", .int 1), ("mode", .str "dynamic"), ("enabled", .bool true), ("position", .int 6)]
        , .dict [("type", .str "attack_path"), ("layout_index", .int 1), ("mode", .str "dynamic"), ("enabled", .bool true), ("position", .int 7)]
        , .dict [("type", .str "observations_overview"), ("layout_index", .int 1), ("mode", .str "dynamic"), ("enabled", .bool true), ("position", .int 8)]
        , .dict [("type", .str "observation"), ("layout_index", .int 1), ("mode", .str "dynamic"), ("enabled", .bool true), ("position", .int 9)]
        , .dict [("type", .str "findings_overview"), ("layout_index", .int 1), ("mode", .str "dynamic"), ("enabled", .bool true), ("position", .int 10)]
        , .dict [("type", .str "finding"), ("layout_index", .int 1), ("mode", .str "dynamic"), ("enabled", .bool true), ("position", .int 11)]
        , .dict [("type", .str "recommendations"), ("layout_index", .int 1), ("mode", .str "dynamic"), ("enabled", .bool true), ("position", .int 12)]
        , .dict [("type", .str "next_steps"), ("layout_index", .int 1), ("mode", .str "dynamic"), ("enabled", .bool true), ("position", .int 13)]
        , .dict [("type", .str "final"), ("layout_index", .int 12), ("mode", .str "dynamic"), ("enabled", .bool true), ("position", .int 14)]
        ])
    ]

/-- The slide list obtained by parsing `DEFAULT_MAPPING`: the 14 built-in
default slide configurations. -/
def default_slides : List SlideConfig :=
  [ { type := "title", layout_index := 0, mode := "dynamic", enabled := true, position := 1 }
  , { type := "agenda", layout_index := 1, mode := "dynamic", enabled := true, position := 2 }
  , { type := "introduction", layout_index := 1, mode := "dynamic", enabled := true, position := 3 }
  , { type := "assessment_details", layout_index := 1, mode := "dynamic", enabled := true, position := 4 }
  , { type := "methodology", layout_index := 1, mode := "dynamic", enabled := true, position := 5 }
  , { type := "timeline", layout_index := 1, mode := "dynamic", enabled := true, position := 6 }
  , { type := "attack_path", layout_index := 1, mode := "dynamic", enabled := true, position := 7 }
  , { type := "observations_overview", layout_index := 1, mode := "dynamic", enabled := true, position := 8 }
  , { type := "observation", layout_index := 1, mode := "dynamic", enabled := true, position := 9 }
  , { type := "findings_overview", layout_index := 1, mode := "dynamic", enabled := true, position := 10 }
  , { type := "finding", layout_index := 1, mode := "dynamic", enabled := true, position := 11 }
  , { type := "recommendations", layout_index := 1, mode := "dynamic", enabled := true, position := 12 }
  , { type := "next_steps", layout_index := 1, mode := "dynamic", enabled := true, position := 13 }
  , { type := "final", layout_index := 12, mode := "dynamic", enabled := true, position := 14 }
  ]

/-- Embedding of `SlideMappingManager._parse_slides` (slide_mapping.py lines
122-132). `mapping_data.get("slides", [])` supplies an empty list when the
key is absent. Iterating the slides value raises `TypeError` when it is not
iterable (None, bool, int): embedded as `.error`, which `__init__` catches.
Python strings and dicts ARE iterable, over characters resp. keys; every
such element fails `from_dict` and is skipped, so those cases yield `[]`.
A per-entry `KeyError`/`TypeError`/`ValueError` is caught inside the loop
and the entry is skipped (`filterMap`). -/
def parse_slides (mapping_data : JValue) : Except Unit (List SlideConfig) :=
  let slides_data := (mapping_data.get "slides").getD (.list [])
  match slides_data with
  | .list xs => .ok (xs.filterMap SlideConfig.from_dict)
  | .str _ => .ok []
  | .dict _ => .ok []
  | _ => .error ()

/-- Embedding of `SlideMappingManager` state: the (sanitized) mapping data,
the parsed slide list, and the optionally bound presentation. -/
structure SlideMappingManager where
  mapping_data : JValue
  slides : List SlideConfig
  presentation : Option Presentation

/-- Embedding of the try/except block of `SlideMappingManager.__init__`
(slide_mapping.py lines 115-120): `_parse_slides` runs on the sanitized
mapping data, and if it raises, the whole mapping is replaced by
`DEFAULT_MAPPING` and reparsed (the reparse of the constant default cannot
fail). -/
def SlideMappingManager.ofSanitized
    (md : JValue) (prs : Option Presentation) : SlideMappingManager :=
  match parse_slides md with
  | .ok s => { mapping_data := md, slides := s, presentation := prs }
  | .error _ =>
      { mapping_data := DEFAULT_MAPPING
      , slides := (parse_slides DEFAULT_MAPPING).toOption.getD []
      , presentation := prs }

/-- Embedding of `SlideMappingManager.__init__` (slide_mapping.py lines
94-120): a missing (`None`) or non-dict `mapping_data` is replaced by
`DEFAULT_MAPPING` (lines 109-113), then the parse with its exception
fallback runs. Construction is total: every exception of the parse is
caught. -/
def SlideMappingManager.ofMapping
    (mapping_data : Option JValue) (prs : Option Presentation) : SlideMappingManager :=
  match mapping_data with
  | some v =>
      if v.isDict then SlideMappingManager.ofSanitized v prs
      else SlideMappingManager.ofSanitized DEFAULT_MAPPING prs
  | none => SlideMappingManager.ofSanitized DEFAULT_MAPPING prs

/-- Embedding of `SlideMappingManager.get_slide_config` (lines 134-139):
first entry matching the type name. -/
def SlideMappingManager.get_slide_config
    (m : SlideMappingManager) (slide_type : String) : Option SlideConfig :=
  m.slides.find? (fun s => s.type == slide_type)

/-- Embedding of `SlideMappingManager.get_layout_index` (lines 141-173):
fallback when the type is unmapped or disabled; with a bound presentation,
fallback when the configured index is not below the layout count. -/
def SlideMappingManager.get_layout_index
    (m : SlideMappingManager) (slide_type : String) (fallback : Int) : Int :=
  match m.get_slide_config slide_type with
  | none => fallback
  | some config =>
    if !config.enabled then fallback
    else
      match m.presentation with
      | some prs =>
          let layout_count : Int := prs.slide_layouts.length
          if config.layout_index ≥ layout_count then fallback
          else config.layout_index
      | none => config.layout_index

/-- Embedding of `SlideMappingManager.is_slide_enabled` (lines 175-178). -/
def SlideMappingManager.is_slide_enabled
    (m : SlideMappingManager) (slide_type : String) : Bool :=
  match m.get_slide_config slide_type with
  | some config => config.enabled
  | none => true

/-- Stable insertion used to model the Python builtin `sorted`, which is a
stable sort: the element is placed before the first element whose key is
not smaller. -/
def insertByPosition (x : SlideConfig) : List SlideConfig → List SlideConfig
  | [] => [x]
  | y :: ys => if x.position ≤ y.position then x :: y :: ys else y :: insertByPosition x ys

/-- Model of Python `sorted(l, key=lambda s: s.position)`: a stable sort by
the `position` field. -/
def sortedByPosition : List SlideConfig → List SlideConfig
  | [] => []
  | x :: xs => insertByPosition x (sortedByPosition xs)

/-- Embedding of `SlideMappingManager.get_slides_by_position` (lines
180-183): the enabled entries, stably sorted ascending by position. The
Python code builds a fresh list (`sorted` returns a new list), leaving
`self.slides` untouched. -/
def SlideMappingManager.get_slides_by_position
    (m : SlideMappingManager) : List SlideConfig :=
  sortedByPosition (m.slides.filter (·.enabled))

/-- The keys of the `SLIDE_TYPES` class constant (slide_mapping.py lines
54-71). -/
def SLIDE_TYPES_keys : List String :=
  [ "title", "agenda", "introduction", "assessment_details", "methodology"
  , "timeline", "attack_path", "observations_overview", "observation"
  , "findings_overview", "finding", "recommendations", "next_steps", "final" ]

/-- Embedding of `SlideMappingManager.validate` (slide_mapping.py lines
185-230). Returns the pair (warnings, errors), appended in source order:
duplicate positions, unknown types, then required types into warnings;
invalid modes, then out-of-range layout indices into errors. It only reads
the manager state. -/
def SlideMappingManager.validate
    (m : SlideMappingManager) : List String × List String :=
  let positions := (m.slides.filter (·.enabled)).map (·.position)
  let dup_warnings :=
    if positions.length ≠ positions.dedup.length then
      ["Duplicate position values found in slide mapping"]
    else []
  let unknown_warnings :=
    (m.slides.filter (fun s =>
      !(SLIDE_TYPES_keys.contains s.type) && !("custom_".isPrefixOf s.type))).map
      (fun s =>
        let t := s.type
        s!"Unknown slide type: {t}")
  let mode_errors :=
    (m.slides.filter (fun s => s.mode != "static" && s.mode != "dynamic")).map
      (fun s =>
        let mo := s.mode
        let t := s.type
        s!"Invalid mode \x27{mo}\x27 for slide type {t}")
  let layout_errors :=
    match m.presentation with
    | some prs =>
        let layout_count : Int := prs.slide_layouts.length
        (m.slides.filter (fun s => s.enabled && s.layout_index ≥ layout_count)).map
          (fun s =>
            let li := s.layout_index
            let t := s.type
            let hi := layout_count - 1
            s!"Layout index {li} for slide type \x27{t}\x27 exceeds available layouts (0-{hi})")
    | none => []
  let required_warnings :=
    (["title", "final"].filter (fun req =>
      match m.get_slide_config req with
      | some config => !config.enabled
      | none => true)).map
      (fun req => s!"Required slide type \x27{req}\x27 is not enabled")
  (dup_warnings ++ unknown_warnings ++ required_warnings, mode_errors ++ layout_errors)

/-- Embedding of `SlideMappingManager.to_dict` (slide_mapping.py lines
232-237): version taken from the stored mapping data (default 1), slides
re-serialized from the parsed list. -/
def SlideMappingManager.to_dict (m : SlideMappingManager) : JValue :=
  .dict
    [ ("version", (m.mapping_data.get "version").getD (.int 1))
    , ("slides", .list (m.slides.map SlideConfig.to_dict))
    ]

/-- Layout description returned by the layout introspection utility. -/
structure LayoutInfo where
  index : Nat
  name : String
deriving DecidableEq, Repr

/-- Embedding of `SlideMappingManager.extract_layouts_from_pptx`
(slide_mapping.py lines 239-263). The file open `Presentation(pptx_path)`
is external I/O; it is embedded as an `Except`-valued oracle argument. On
success the function enumerates the layouts in order; any exception is
caught and the empty list returned. -/
def extract_layouts_from_pptx (loaded : Except String Presentation) : List LayoutInfo :=
  match loaded with
  | .ok prs => prs.slide_layouts.enum.map (fun p => { index := p.1, name := p.2.name })
  | .error _ => []

/-- Font color variant observed by the code: an RGB value (type 1) or a
theme reference (type 2). -/
inductive FontColor where
  | rgb (v : Nat)
  | theme (v : Nat)
deriving DecidableEq, Repr

/-- Run-level font properties carried opaquely by the format-preserving
operations; `none` is the python-pptx `None` (inherit). -/
structure FontProps where
  name : Option String
  size : Option Int
  bold : Option Bool
  italic : Option Bool
  underline : Option Bool
  color : Option FontColor
deriving DecidableEq, Repr

/-- Default font properties: every field inherits (python-pptx `None`). -/
def FontProps.default : FontProps :=
  { name := none, size := none, bold := none, italic := none
  , underline := none, color := none }

/-- Embedding of a python-pptx run: its text and font properties. -/
structure PRun where
  text : String
  font : FontProps
deriving DecidableEq, Repr

/-- Embedding of a python-pptx paragraph: its ordered runs. -/
structure TParagraph where
  runs : List PRun
deriving DecidableEq, Repr

/-- Embedding of a shape as observed by `set_text_preserving_format`: the
`has_text_frame` flag and the text frame paragraph list. -/
structure Shape where
  has_text_frame : Bool
  paragraphs : List TParagraph
deriving DecidableEq, Repr

/-- Embedding of `set_text_preserving_format` (base/pptx.py lines 434-478).
When the first paragraph has runs: each run text is cleared, the first run
receives the new text (keeping its font), all later runs and all later
paragraphs are removed — net effect one paragraph with one run carrying the
first run font. When the first paragraph has no runs, the paragraph-level
text setter is used, which in python-pptx replaces the paragraph content by
a single default-formatted run; later paragraphs are removed. With no
paragraphs at all, the frame-level text setter yields a single paragraph
with a single default run. A `None` shape or one without a text frame is
returned untouched. -/
def set_text_preserving_format (shape : Option Shape) (text : String) : Option Shape :=
  match shape with
  | none => none
  | some sh =>
    if !sh.has_text_frame then some sh
    else
      match sh.paragraphs with
      | [] => some { sh with paragraphs := [{ runs := [{ text := text, font := FontProps.default }] }] }
      | first_para :: _ =>
        match first_para.runs with
        | [] => some { sh with paragraphs := [{ runs := [{ text := text, font := FontProps.default }] }] }
        | first_run :: _ =>
            some { sh with paragraphs := [{ runs := [{ text := text, font := first_run.font }] }] }

/-- Character-list prefix test used by the substring model. -/
def listPrefixOf : List Char → List Char → Bool
  | [], _ => true
  | _ :: _, [] => false
  | a :: as, b :: bs => a == b && listPrefixOf as bs

/-- Character-list substring occurrence test. -/
def listContainsSub (sub : List Char) : List Char → Bool
  | [] => sub.isEmpty
  | c :: cs => listPrefixOf sub (c :: cs) || listContainsSub sub cs

/-- Model of the Python substring test `sub in s`, computed over the
underlying character lists. -/
def strContains (s sub : String) : Bool := listContainsSub sub.data s.data

/-- Model of the Python single-character `str.replace`, mapping over the
underlying character list. -/
def charReplace (s : String) (a b : Char) : String :=
  String.mk (s.data.map (fun c => if c == a then b else c))

/-- Outcome of the external Jinja2 evaluation `from_string` + `render` of
one paragraph text: a rendered string, an `UndefinedError`, or any other
exception (for example a template syntax error). Both error outcomes are
raised by the evaluation itself, before the code mutates anything. -/
inductive RenderOutcome where
  | ok (rendered : String)
  | undefinedErr (msg : String)
  | exn (msg : String)
deriving DecidableEq, Repr

/-- Embedding of one iteration of the paragraph loop of
`render_jinja2_in_textframe` (base/pptx.py lines 597-825). Returns the
paragraphs standing at the original position (the paragraph, possibly
mutated, or nothing when it was deleted) and the paragraphs the external
HTML converter appended at the end of the text frame.

The paragraph text is reconstructed from the runs with non-breaking spaces
normalized (line 603). Only a text containing both delimiters is evaluated
(line 609). An `UndefinedError` from the evaluation is caught (lines
798-810) and any other exception likewise (lines 813-825); in both cases
the raise happens at `template.render` (line 618), before any mutation, so
the paragraph is left exactly as it was. On success, the first run font is
captured (lines 660-690), all runs are removed (lines 699-702); for an
HTML result the external converter output is appended to the frame and the
now-empty paragraph deleted (lines 708-726), otherwise a single new run
receives the rendered text and the captured font properties are reapplied
field by field (lines 729-792). -/
def paragraph_text (p : TParagraph) : String :=
  charReplace (String.join (p.runs.map (·.text))) '\u00A0' ' '

def process_paragraph (render : String → RenderOutcome) (is_html : String → Bool)
    (convert : String → List TParagraph) (p : TParagraph) :
    List TParagraph × List TParagraph :=
  let original_text := paragraph_text p
  if original_text != "" && strContains original_text "\x7b\x7b"
      && strContains original_text "\x7d\x7d" then
    match render original_text with
    | .undefinedErr _ => ([p], [])
    | .exn _ => ([p], [])
    | .ok rendered =>
      let font_props : Option FontProps := p.runs.head?.map (·.font)
      if is_html rendered then
        ([], convert rendered)
      else
        ([{ runs := [{ text := rendered, font := font_props.getD FontProps.default }] }], [])
  else
    ([p], [])

/-- Embedding of `render_jinja2_in_textframe` (base/pptx.py lines 552-825):
the loop iterates over the snapshot of the frame paragraphs; in-place
results keep document order and converter-appended content lands after
them. Every exception inside the loop body is caught, so the call always
returns and every paragraph is processed. -/
def render_jinja2_in_textframe (render : String → RenderOutcome) (is_html : String → Bool)
    (convert : String → List TParagraph) (paragraphs : List TParagraph) : List TParagraph :=
  (paragraphs.map (fun p => (process_paragraph render is_html convert p).1)).flatten
    ++ (paragraphs.map (fun p => (process_paragraph render is_html convert p).2)).flatten

/-- Placeholder of a slide layout as observed by `process_footers`: its
name and its text. -/
structure LayoutPh where
  name : String
  text : String
deriving DecidableEq, Repr

/-- Slide of the finished deck as observed by `process_footers`: the
placeholder list of its layout. -/
structure DeckSlide where
  layout_placeholders : List LayoutPh
deriving DecidableEq, Repr

/-- Clone-and-populate action `process_footers` can apply to a slide. -/
inductive FooterAction where
  | clone_footer (text : String)
  | clone_slide_number
  | clone_date
deriving DecidableEq, Repr

/-- Last enumeration index whose placeholder name contains the given
substring, or -1: models the repeated assignments in the scan loop at
base/pptx.py lines 265-271. -/
def last_matching_placeholder_idx (sub : String) (phs : List LayoutPh) : Int :=
  phs.enum.foldl (fun acc q => if strContains q.2.name sub then (q.1 : Int) else acc) (-1)

/-- Embedding of the body of `process_footers` for one slide (base/pptx.py
lines 259-289), returning the clone-and-populate actions applied to that
slide. The inner `for idx, place in enumerate(...)` loop REBINDS the outer
loop variable `idx`; after the scan, `idx` holds the last placeholder
enumeration index (or, when the layout has no placeholders, still the
outer slide index). The subsequent `if idx > 0` check — intended, per the
comment at line 273, to skip the title slide at index 0 — therefore tests
that stale value. Each placeholder kind is cloned only when its recorded
enumeration index is strictly positive (lines 275-289); the footer clone
copies the layout placeholder text verbatim. -/
def process_footers_slide_actions (slide_idx : Nat) (s : DeckSlide) : List FooterAction :=
  let phs := s.layout_placeholders
  let footer_placeholder_idx := last_matching_placeholder_idx "Footer" phs
  let slide_number_placeholder_idx := last_matching_placeholder_idx "Slide Number" phs
  let date_placeholder_idx := last_matching_placeholder_idx "Date" phs
  let idx : Int := if phs.isEmpty then (slide_idx : Int) else (phs.length : Int) - 1
  if idx > 0 then
    (if footer_placeholder_idx > 0 then
        [FooterAction.clone_footer ((phs.get? footer_placeholder_idx.toNat).map (·.text) |>.getD "")]
      else [])
    ++ (if slide_number_placeholder_idx > 0 then [FooterAction.clone_slide_number] else [])
    ++ (if date_placeholder_idx > 0 then [FooterAction.clone_date] else [])
  else []

/-- Embedding of `ExportBasePptx.process_footers` (base/pptx.py lines
255-289): the per-slide clone actions, in deck order. An empty action list
means the slide is left unchanged by the post-pass. -/
def process_footers (slides : List DeckSlide) : List (List FooterAction) :=
  slides.enum.map (fun q => process_footers_slide_actions q.1 q.2)

/-- Python exception raised when a call binds too few positional
arguments. -/
inductive PyError where
  | typeError (msg : String)
deriving DecidableEq, Repr

/-- Number of parameters of `render_jinja2_in_shape` without default
values: `shape`, `jinja_env`, `context`, `slide` (base/pptx.py line 834). -/
def render_jinja2_in_shape_required_params : Nat := 4

/-- Number of positional arguments passed to `render_jinja2_in_shape` by
the per-item builders: `(shape, self.jinja_env, finding_context)` at
report/pptx.py line 279 and `(shape, self.jinja_env, observation_context)`
at line 160 — the `slide` argument is missing. -/
def builder_render_call_args : Nat := 3

/-- Embedding of Python positional-argument binding: a call providing
fewer positional arguments than the callee has parameters without
defaults raises `TypeError` before the callee body runs. -/
def python_positional_call (required given : Nat) : Except PyError Unit :=
  if given < required then
    .error (.typeError "render_jinja2_in_shape() missing 1 required positional argument: slide")
  else .ok ()

/-- The render call executed for each shape of a newly added per-item
slide, as written in the builders. -/
def builder_render_call : Except PyError Unit :=
  python_positional_call render_jinja2_in_shape_required_params builder_render_call_args

/-- Embedding of the inner `for shape in ...shapes:` loop of the per-item
builders: the render call runs once per shape and a raise aborts the
loop. -/
def process_item_shapes : Nat → Except PyError Unit
  | 0 => .ok ()
  | n + 1 =>
    match builder_render_call with
    | .error e => .error e
    | .ok _ => process_item_shapes n

/-- Embedding of the per-item loops of `create_finding_slides`
(report/pptx.py lines 254-283) and `create_observation_slides` (lines
147-164): for each item of the collection a slide is added from the
configured layout and the render call runs over every shape of the new
slide. Neither loop is wrapped in a try/except, so a raise propagates out
of the builder. On success, returns the number of slides created. -/
def create_item_slides (items : List String) (shapes_on_new_slide : Nat) :
    Except PyError Nat :=
  items.foldlM
    (fun acc _ =>
      match process_item_shapes shapes_on_new_slide with
      | .error e => .error e
      | .ok _ => .ok (acc + 1))
    0

theorem insertByPosition_perm (x : SlideConfig) (l : List SlideConfig) :
    (insertByPosition x l).Perm (x :: l) := by
  induction l with
  | nil => simp [insertByPosition]
  | cons y ys ih =>
    by_cases h : x.position ≤ y.position
    · simp [insertByPosition, h]
    · simp only [insertByPosition, if_neg h]
      exact (ih.cons y).trans (List.Perm.swap x y ys)

theorem mem_insertByPosition {z x : SlideConfig} {l : List SlideConfig} :
    z ∈ insertByPosition x l ↔ z = x ∨ z ∈ l := by
  rw [(insertByPosition_perm x l).mem_iff]
  simp

theorem sortedByPosition_perm (l : List SlideConfig) :
    (sortedByPosition l).Perm l := by
  induction l with
  | nil => simp [sortedByPosition]
  | cons x xs ih =>
    exact (insertByPosition_perm x (sortedByPosition xs)).trans (ih.cons x)

theorem pairwise_insertByPosition (x : SlideConfig) (l : List SlideConfig)
    (h : l.Pairwise (fun a b => a.position ≤ b.position)) :
    (insertByPosition x l).Pairwise (fun a b => a.position ≤ b.position) := by
  induction l with
  | nil => simp [insertByPosition]
  | cons y ys ih =>
    rcases List.pairwise_cons.mp h with ⟨hy, hys⟩
    by_cases hle : x.position ≤ y.position
    · simp only [insertByPosition, if_pos hle]
      refine List.pairwise_cons.mpr ⟨?_, h⟩
      intro z hz
      rcases List.mem_cons.mp hz with rfl | hz
      · exact hle
      · exact le_trans hle (hy z hz)
    · simp only [insertByPosition, if_neg hle]
      refine List.pairwise_cons.mpr ⟨?_, ih hys⟩
      intro z hz
      rcases mem_insertByPosition.mp hz with rfl | hz
      · exact le_of_lt (not_le.mp hle)
      · exact hy z hz

theorem pairwise_sortedByPosition (l : List SlideConfig) :
    (sortedByPosition l).Pairwise (fun a b => a.position ≤ b.position) := by
  induction l with
  | nil => simp [sortedByPosition]
  | cons x xs ih => exact pairwise_insertByPosition x (sortedByPosition xs) ih

theorem filter_insertByPosition (x : SlideConfig) (l : List SlideConfig) (p : Int) :
    (insertByPosition x l).filter (fun s => s.position == p)
      = (x :: l).filter (fun s => s.position == p) := by
  induction l with
  | nil => rfl
  | cons y ys ih =>
    by_cases hle : x.position ≤ y.position
    · simp only [insertByPosition, if_pos hle]
    · simp only [insertByPosition, if_neg hle]
      have hlt : y.position < x.position := not_le.mp hle
      by_cases hx : x.position = p
      · have hy : ¬ y.position = p := by omega
        simp [List.filter_cons, ih, hx, hy]
      · by_cases hy : y.position = p
        · simp [List.filter_cons, ih, hx, hy]
        · simp [List.filter_cons, ih, hx, hy]

theorem filter_sortedByPosition (l : List SlideConfig) (p : Int) :
    (sortedByPosition l).filter (fun s => s.position == p)
      = l.filter (fun s => s.position == p) := by
  induction l with
  | nil => rfl
  | cons x xs ih =>
    calc (sortedByPosition (x :: xs)).filter (fun s => s.position == p)
        = (x :: sortedByPosition xs).filter (fun s => s.position == p) :=
          filter_insertByPosition x (sortedByPosition xs) p
      _ = (x :: xs).filter (fun s => s.position == p) := by
          simp only [List.filter_cons, ih]

/-- C6: for every parsed slide list, `get_slides_by_position` returns
exactly the entries with `enabled = true` (a permutation of the enabled
filter), sorted ascending by `position`, and entries with equal positions
keep their original document order (the per-position filtrations agree with
the unsorted enabled list). The embedding is pure and the Python `sorted`
builtin allocates a fresh list, so the underlying slide list is not
modified. -/
theorem get_slides_by_position_stable_sorted (m : SlideMappingManager) :
    (m.get_slides_by_position).Perm (m.slides.filter (·.enabled)) ∧
    (m.get_slides_by_position).Pairwise (fun a b => a.position ≤ b.position) ∧
    ∀ p : Int, (m.get_slides_by_position).filter (fun s => s.position == p)
        = (m.slides.filter (·.enabled)).filter (fun s => s.position == p) := by
  refine ⟨?_, ?_, ?_⟩
  · exact sortedByPosition_perm (m.slides.filter (·.enabled))
  · exact pairwise_sortedByPosition (m.slides.filter (·.enabled))
  · intro p
    exact filter_sortedByPosition (m.slides.filter (·.enabled)) p

/-- C5: `get_layout_index` returns the fallback whenever the type has no
config, its config is disabled, or (with a bound presentation) its
configured layout index is at least the presentation layout count; in all
other cases (index in range, or no bound presentation) it returns the
configured layout index. -/
theorem get_layout_index_fallback (m : SlideMappingManager) (t : String) (fb : Int) :
    (m.get_slide_config t = none → m.get_layout_index t fb = fb) ∧
    (∀ c, m.get_slide_config t = some c → c.enabled = false →
        m.get_layout_index t fb = fb) ∧
    (∀ c prs, m.get_slide_config t = some c → c.enabled = true →
        m.presentation = some prs →
        ((prs.slide_layouts.length : Int) ≤ c.layout_index) →
        m.get_layout_index t fb = fb) ∧
    (∀ c prs, m.get_slide_config t = some c → c.enabled = true →
        m.presentation = some prs →
        (c.layout_index < (prs.slide_layouts.length : Int)) →
        m.get_layout_index t fb = c.layout_index) ∧
    (∀ c, m.get_slide_config t = some c → c.enabled = true →
        m.presentation = none → m.get_layout_index t fb = c.layout_index) := by
  unfold SlideMappingManager.get_layout_index
  refine ⟨?_, ?_, ?_, ?_, ?_⟩
  · intro h; rw [h]
  · intro c h hen; rw [h]; simp [hen]
  · intro c prs h hen hprs hge; rw [h, hprs]; simp [hen, ge_iff_le, hge]
  · intro c prs h hen hprs hlt; rw [h, hprs]
    simp only [hen, Bool.not_true, Bool.false_eq_true, if_false, ge_iff_le]
    rw [if_neg (by exact not_le.mpr hlt)]
  · intro c h hen hprs; rw [h, hprs]; simp [hen]

/-- Witness manager for C5: two configured types, one enabled with layout
index 5 and one disabled, bound to a three-layout presentation. -/
def c5_mgr : SlideMappingManager :=
  { mapping_data := DEFAULT_MAPPING
  , slides :=
      [ { type := "title", layout_index := 5, mode := "dynamic", enabled := true, position := 3 }
      , { type := "agenda", layout_index := 2, mode := "dynamic", enabled := false, position := 1 } ]
  , presentation := some { slide_layouts := [{ name := "L0" }, { name := "L1" }, { name := "L2" }] } }

/-- Witness manager for C5 with ten layouts, so the configured index 5 is
in range. -/
def c5_mgr_big : SlideMappingManager :=
  { c5_mgr with presentation := some { slide_layouts :=
      [ { name := "L0" }, { name := "L1" }, { name := "L2" }, { name := "L3" }, { name := "L4" }
      , { name := "L5" }, { name := "L6" }, { name := "L7" }, { name := "L8" }, { name := "L9" } ] } }

/-- Witness manager for C5 without a bound presentation. -/
def c5_mgr_none : SlideMappingManager := { c5_mgr with presentation := none }

/-- Witness for C5: the fallback and non-fallback branches at concrete
inputs. -/
theorem get_layout_index_fallback_witness :
    c5_mgr.get_layout_index "unknown" 9 = 9 ∧
    c5_mgr.get_layout_index "agenda" 7 = 7 ∧
    c5_mgr.get_layout_index "title" 1 = 1 ∧
    c5_mgr_big.get_layout_index "title" 1 = 5 ∧
    c5_mgr_none.get_layout_index "title" 1 = 5 := by
  refine ⟨?_, ?_, ?_, ?_, ?_⟩
  · exact (get_layout_index_fallback c5_mgr "unknown" 9).1 (by rfl)
  · exact (get_layout_index_fallback c5_mgr "agenda" 7).2.1 _ (by rfl) (by rfl)
  · exact (get_layout_index_fallback c5_mgr "title" 1).2.2.1 _ _ (by rfl) (by rfl) (by rfl)
      (by decide)
  · exact (get_layout_index_fallback c5_mgr_big "title" 1).2.2.2.1 _ _ (by rfl) (by rfl)
      (by rfl) (by decide)
  · exact (get_layout_index_fallback c5_mgr_none "title" 1).2.2.2.2 _ (by rfl) (by rfl) (by rfl)

theorem parse_slides_default : parse_slides DEFAULT_MAPPING = .ok default_slides := by rfl

theorem ofSanitized_default (p : Option Presentation) :
    SlideMappingManager.ofSanitized DEFAULT_MAPPING p
      = { mapping_data := DEFAULT_MAPPING, slides := default_slides, presentation := p } := by
  unfold SlideMappingManager.ofSanitized
  rw [parse_slides_default]

/-- C1 counterexample: a mapping document that is a dict but lacks the
`slides` key parses to an EMPTY slide list — `mapping_data.get("slides",
[])` supplies `[]` and no exception occurs — so the manager does not hold
the 14-entry built-in default, contradicting the claim for this malformed
shape. -/
theorem ofMapping_missing_slides_key_counterexample :
    (SlideMappingManager.ofMapping (some (JValue.dict [("version", JValue.int 1)])) none).slides = []
    ∧ (SlideMappingManager.ofMapping (some (JValue.dict [("version", JValue.int 1)])) none).slides
        ≠ default_slides := by
  constructor
  · rfl
  · decide

/-- C1 (amended): construction never raises (every parse exception is
caught, and the embedding of construction is a total function). When
`mapping_data` is `None` or not a dict, or when the slides value makes the
parse fail structurally (a non-iterable value such as an int), the manager
holds the built-in default list of 14 entries whose first type is `title`
and last is `final`. A dict lacking the `slides` key yields an EMPTY slide
list, and within a present slides list an unparseable entry is skipped
individually while the remaining entries are kept. -/
theorem ofMapping_fallback_behaviour :
    (∀ (v : JValue) (p : Option Presentation), v.isDict = false →
        (SlideMappingManager.ofMapping (some v) p).slides = default_slides) ∧
    (∀ p : Option Presentation,
        (SlideMappingManager.ofMapping none p).slides = default_slides) ∧
    (∀ (p : Option Presentation) (kvs : List (String × JValue)) (n : Int),
        (JValue.dict kvs).get "slides" = some (JValue.int n) →
        (SlideMappingManager.ofMapping (some (JValue.dict kvs)) p).slides = default_slides) ∧
    (∀ (p : Option Presentation) (kvs : List (String × JValue)),
        (JValue.dict kvs).get "slides" = none →
        (SlideMappingManager.ofMapping (some (JValue.dict kvs)) p).slides = []) ∧
    (∀ (p : Option Presentation) (xs : List JValue),
        (SlideMappingManager.ofMapping (some (JValue.dict [("slides", JValue.list xs)])) p).slides
          = xs.filterMap SlideConfig.from_dict) ∧
    (default_slides.length = 14 ∧ (default_slides.head?.map (·.type)) = some "title"
      ∧ (default_slides.getLast?.map (·.type)) = some "final") := by
  refine ⟨?_, ?_, ?_, ?_, ?_, by decide⟩
  · intro v p h
    simp [SlideMappingManager.ofMapping, h, ofSanitized_default]
  · intro p
    simp [SlideMappingManager.ofMapping, ofSanitized_default]
  · intro p kvs n h
    have hp : parse_slides (JValue.dict kvs) = .error () := by
      unfold parse_slides; rw [h]; rfl
    simp [SlideMappingManager.ofMapping, SlideMappingManager.ofSanitized, JValue.isDict,
      hp, parse_slides_default, Except.toOption]
  · intro p kvs h
    have hp : parse_slides (JValue.dict kvs) = .ok [] := by
      unfold parse_slides; rw [h]; rfl
    simp [SlideMappingManager.ofMapping, SlideMappingManager.ofSanitized, JValue.isDict, hp]
  · intro p xs
    have hp : parse_slides (JValue.dict [("slides", JValue.list xs)])
        = .ok (xs.filterMap SlideConfig.from_dict) := rfl
    simp [SlideMappingManager.ofMapping, SlideMappingManager.ofSanitized, JValue.isDict, hp]

/-- Witness for C1 (amended): each fallback branch evaluated at a concrete
malformed document. -/
theorem ofMapping_fallback_behaviour_witness :
    (SlideMappingManager.ofMapping (some (JValue.int 5)) none).slides = default_slides ∧
    (SlideMappingManager.ofMapping none none).slides = default_slides ∧
    (SlideMappingManager.ofMapping (some (JValue.dict [("slides", JValue.int 3)])) none).slides
      = default_slides ∧
    (SlideMappingManager.ofMapping (some (JValue.dict [("version", JValue.int 2)])) none).slides
      = [] ∧
    (SlideMappingManager.ofMapping (some (JValue.dict [("slides", JValue.list
        [ JValue.dict [("type", JValue.str "title"), ("layout_index", JValue.int 0),
            ("mode", JValue.str "dynamic"), ("enabled", JValue.bool true), ("position", JValue.int 1)]
        , JValue.dict [("type", JValue.str "broken")] ])])) none).slides
      = [{ type := "title", layout_index := 0, mode := "dynamic", enabled := true, position := 1 }] := by
  refine ⟨ofMapping_fallback_behaviour.1 _ _ (by rfl),
    ofMapping_fallback_behaviour.2.1 _,
    ofMapping_fallback_behaviour.2.2.1 _ _ 3 (by rfl),
    ofMapping_fallback_behaviour.2.2.2.1 _ _ (by rfl), ?_⟩
  rw [ofMapping_fallback_behaviour.2.2.2.2.1]
  decide

theorem from_dict_to_dict (c : SlideConfig) :
    SlideConfig.from_dict c.to_dict = some c := rfl

theorem roundtrip_list (l : List SlideConfig) :
    (l.map SlideConfig.to_dict).filterMap SlideConfig.from_dict = l := by
  induction l with
  | nil => rfl
  | cons c cs ih =>
    simp [List.map_cons, List.filterMap_cons, from_dict_to_dict c, ih]

theorem parse_to_dict (m : SlideMappingManager) :
    parse_slides m.to_dict = .ok m.slides := by
  show Except.ok ((m.slides.map SlideConfig.to_dict).filterMap SlideConfig.from_dict)
    = Except.ok m.slides
  rw [roundtrip_list]

/-- C8: round-trip. Constructing a manager from any mapping document,
exporting it with `to_dict`, and constructing a second manager from that
dict yields exactly the same slide list (hence entrywise the same type,
layout index, mode, enabled flag and position). -/
theorem to_dict_roundtrip (md : Option JValue) (p : Option Presentation) :
    (SlideMappingManager.ofMapping (some ((SlideMappingManager.ofMapping md p).to_dict)) p).slides
      = (SlideMappingManager.ofMapping md p).slides := by
  set m := SlideMappingManager.ofMapping md p with hm
  have h1 : (m.to_dict).isDict = true := rfl
  simp [SlideMappingManager.ofMapping, SlideMappingManager.ofSanitized, h1, parse_to_dict]

/-- Mapping document with two enabled entries sharing position 3. -/
def c9_dup_doc : JValue :=
  .dict [("version", .int 1), ("slides", .list
    [ .dict [("type", .str "title"), ("layout_index", .int 0), ("mode", .str "dynamic"),
        ("enabled", .bool true), ("position", .int 3)]
    , .dict [("type", .str "final"), ("layout_index", .int 1), ("mode", .str "dynamic"),
        ("enabled", .bool true), ("position", .int 3)] ])]

/-- Mapping document with one entry whose mode is the invalid string
`dynamic-ish`. -/
def c9_mode_doc : JValue :=
  .dict [("version", .int 1), ("slides", .list
    [ .dict [("type", .str "title"), ("layout_index", .int 0), ("mode", .str "dynamic"),
        ("enabled", .bool true), ("position", .int 1)]
    , .dict [("type", .str "final"), ("layout_index", .int 1), ("mode", .str "dynamic-ish"),
        ("enabled", .bool true), ("position", .int 2)] ])]

/-- Mapping document in which the required `final` entry is disabled. -/
def c9_final_disabled_doc : JValue :=
  .dict [("version", .int 1), ("slides", .list
    [ .dict [("type", .str "title"), ("layout_index", .int 0), ("mode", .str "dynamic"),
        ("enabled", .bool true), ("position", .int 1)]
    , .dict [("type", .str "final"), ("layout_index", .int 1), ("mode", .str "dynamic"),
        ("enabled", .bool false), ("position", .int 2)] ])]

/-- C9: `validate` yields exactly one duplicate-position warning for the
document with two entries at position 3, exactly one invalid-mode error
for the document with mode `dynamic-ish`, and exactly one
missing-required-type warning when `final` is disabled. The embedding of
`validate` is a pure function of the manager — the source only reads
`self.slides` and `self.presentation` — so validation does not mutate the
manager state. -/
theorem validate_cases :
    (SlideMappingManager.ofMapping (some c9_dup_doc) none).validate
      = (["Duplicate position values found in slide mapping"], []) ∧
    (SlideMappingManager.ofMapping (some c9_mode_doc) none).validate
      = ([], ["Invalid mode \x27dynamic-ish\x27 for slide type final"]) ∧
    (SlideMappingManager.ofMapping (some c9_final_disabled_doc) none).validate
      = (["Required slide type \x27final\x27 is not enabled"], []) := by
  refine ⟨?_, ?_, ?_⟩ <;> rfl

/-- C10: the layout introspection utility never raises — any failure of the
external presentation load yields the empty list, and a successful load
yields one `(index, name)` entry per layout, in template order. -/
theorem extract_layouts_spec :
    (∀ msg : String, extract_layouts_from_pptx (.error msg) = []) ∧
    (∀ prs : Presentation,
      (extract_layouts_from_pptx (.ok prs)).length = prs.slide_layouts.length ∧
      ∀ i (h : i < prs.slide_layouts.length),
        (extract_layouts_from_pptx (.ok prs))[i]?
          = some { index := i, name := prs.slide_layouts[i].name }) := by
  refine ⟨fun _ => rfl, fun prs => ⟨by simp [extract_layouts_from_pptx], ?_⟩⟩
  intro i h
  simp [extract_layouts_from_pptx, List.getElem?_map, List.getElem?_enum,
    List.getElem?_eq_getElem h]

/-- Witness for C10: a concrete two-layout presentation and a concrete load
failure. -/
theorem extract_layouts_spec_witness :
    extract_layouts_from_pptx (.error "corrupt file") = [] ∧
    (extract_layouts_from_pptx (.ok { slide_layouts := [{ name := "Title Slide" }, { name := "Content" }] })).length = 2 ∧
    (extract_layouts_from_pptx (.ok { slide_layouts := [{ name := "Title Slide" }, { name := "Content" }] }))[0]?
      = some { index := 0, name := "Title Slide" } ∧
    (extract_layouts_from_pptx (.ok { slide_layouts := [{ name := "Title Slide" }, { name := "Content" }] }))[1]?
      = some { index := 1, name := "Content" } := by
  refine ⟨extract_layouts_spec.1 _, ?_, ?_, ?_⟩
  · exact (extract_layouts_spec.2 _).1
  · exact (extract_layouts_spec.2 _).2 0 (by decide)
  · exact (extract_layouts_spec.2 _).2 1 (by decide)

/-- C2 evaluation at failing inputs. First deck: a single slide (index 0,
the title slide) whose layout has two placeholders, the second a footer —
the stale `idx` value from the shadowed inner loop is 1 > 0, so the footer
IS cloned onto the first slide, although the claim (and the source comment
at base/pptx.py line 273) promises the first slide is left unchanged.
Second deck: slide index 1 has a footer placeholder as its layout's only
placeholder — the stale `idx` is 0, so that subsequent slide is NOT
processed, although the claim promises the clone. -/
theorem process_footers_first_slide_modified :
    process_footers
        [ { layout_placeholders :=
              [ { name := "Title 1", text := "" }
              , { name := "Footer Placeholder 2", text := "Confidential" } ] } ]
      = [[FooterAction.clone_footer "Confidential"]] ∧
    process_footers
        [ { layout_placeholders := [] }
        , { layout_placeholders := [ { name := "Footer Placeholder 1", text := "X" } ] } ]
      = [[], []] := by
  constructor <;> rfl

/-- C3 evaluation at the failing input: with a single finding and a new
slide holding a single shape, the builder's render call binds only 3
positional arguments against the 4 required parameters of
`render_jinja2_in_shape`, so a `TypeError` propagates out of the builder
(no try/except encloses the loop). The final conjunct checks that a call
binding all 4 parameters would succeed, so the failure is caused by the
missing `slide` argument alone. -/
theorem create_item_slides_raises_type_error :
    create_item_slides ["finding-1"] 1
      = .error (.typeError
          "render_jinja2_in_shape() missing 1 required positional argument: slide") ∧
    create_item_slides ["obs-1", "obs-2"] 3
      = .error (.typeError
          "render_jinja2_in_shape() missing 1 required positional argument: slide") ∧
    create_item_slides ["finding-1"] 0 = .ok 1 ∧
    python_positional_call render_jinja2_in_shape_required_params 4 = .ok () := by
  refine ⟨rfl, rfl, rfl, rfl⟩

/-- C4: a paragraph whose reconstructed text contains both delimiters and
whose evaluation raises an undefined-variable error is left exactly as it
was — the raise happens before any run is mutated and is caught — and the
surrounding paragraphs of the frame are still processed normally (the
result of the whole pass keeps the failed paragraph unchanged, in place,
between the processed results of the other paragraphs). The embedding of
the pass is a total function: no exception escapes the rendering call. -/
theorem render_undef_leaves_paragraph (render : String → RenderOutcome)
    (is_html : String → Bool) (convert : String → List TParagraph)
    (qs rs : List TParagraph) (p : TParagraph) (msg : String)
    (h1 : strContains (paragraph_text p) "\x7b\x7b" = true)
    (h2 : strContains (paragraph_text p) "\x7d\x7d" = true)
    (hu : render (paragraph_text p) = .undefinedErr msg) :
    process_paragraph render is_html convert p = ([p], []) ∧
    render_jinja2_in_textframe render is_html convert (qs ++ p :: rs)
      = ((qs.map (fun q => (process_paragraph render is_html convert q).1)).flatten
          ++ p :: (rs.map (fun q => (process_paragraph render is_html convert q).1)).flatten)
        ++ ((qs.map (fun q => (process_paragraph render is_html convert q).2)).flatten
          ++ (rs.map (fun q => (process_paragraph render is_html convert q).2)).flatten) := by
  have hne : paragraph_text p ≠ "" := by
    intro he
    rw [he] at h1
    exact absurd h1 (by decide)
  have hp : process_paragraph render is_html convert p = ([p], []) := by
    simp [process_paragraph, h1, h2, hu, hne]
  refine ⟨hp, ?_⟩
  simp [render_jinja2_in_textframe, List.map_append, List.map_cons,
    List.flatten_append, List.flatten_cons, hp]

/-- Renderer for the C4 witness: the paragraph containing `missing` fails
with an undefined-variable error, anything else renders. -/
def c4_render (s : String) : RenderOutcome :=
  if s = "\x7b\x7b missing \x7d\x7d" then .undefinedErr "missing is undefined"
  else .ok "Finding: Example"

/-- Witness for C4: a two-paragraph frame in which the second paragraph
fails with an undefined variable and is kept verbatim while the first is
rendered. -/
theorem render_undef_leaves_paragraph_witness :
    render_jinja2_in_textframe c4_render (fun _ => false) (fun _ => [])
        ([{ runs := [{ text := "Finding: \x7b\x7b title \x7d\x7d", font := FontProps.default }] }]
          ++ { runs := [{ text := "\x7b\x7b missing \x7d\x7d", font := FontProps.default }] } :: [])
      = [ { runs := [{ text := "Finding: Example", font := FontProps.default }] }
        , { runs := [{ text := "\x7b\x7b missing \x7d\x7d", font := FontProps.default }] } ] := by
  have h := render_undef_leaves_paragraph c4_render (fun _ => false) (fun _ => [])
      [{ runs := [{ text := "Finding: \x7b\x7b title \x7d\x7d", font := FontProps.default }] }] []
      { runs := [{ text := "\x7b\x7b missing \x7d\x7d", font := FontProps.default }] }
      "missing is undefined" (by decide) (by decide) (by decide)
  rw [h.2]
  rfl

/-- C7: when the first paragraph of the text frame has at least one run,
`set_text_preserving_format` leaves a single paragraph whose sole run
carries the new text with the first run's original font; when the first
paragraph has no runs, the text is set at paragraph level (a single
default-formatted run) and all other paragraphs are deleted. -/
theorem set_text_preserving_format_spec (paras : List TParagraph)
    (first_para : TParagraph) (text : String) :
    (∀ first_run rest_runs, first_para.runs = first_run :: rest_runs →
      set_text_preserving_format
          (some { has_text_frame := true, paragraphs := first_para :: paras }) text
        = some { has_text_frame := true
               , paragraphs := [{ runs := [{ text := text, font := first_run.font }] }] }) ∧
    (first_para.runs = [] →
      set_text_preserving_format
          (some { has_text_frame := true, paragraphs := first_para :: paras }) text
        = some { has_text_frame := true
               , paragraphs := [{ runs := [{ text := text, font := FontProps.default }] }] }) := by
  constructor
  · intro first_run rest_runs h
    simp [set_text_preserving_format, h]
  · intro h
    simp [set_text_preserving_format, h]

/-- Witness for C7: a bold `Hello` run replaced by `Goodbye` stays bold,
and an extra paragraph is deleted. -/
theorem set_text_preserving_format_spec_witness :
    set_text_preserving_format
        (some { has_text_frame := true, paragraphs :=
          [ { runs := [{ text := "Hello", font := { FontProps.default with bold := some true } }] }
          , { runs := [{ text := "extra", font := FontProps.default }] } ] }) "Goodbye"
      = some { has_text_frame := true, paragraphs :=
          [ { runs := [{ text := "Goodbye", font := { FontProps.default with bold := some true } }] } ] } := by
  exact (set_text_preserving_format_spec
      [{ runs := [{ text := "extra", font := FontProps.default }] }]
      { runs := [{ text := "Hello", font := { FontProps.default with bold := some true } }] }
      "Goodbye").1 _ _ rfl
